import Mathlib

/-!
Verification of the futbin-sdk client core (src/futbin_sdk/client.py and
src/futbin_sdk/models.py) against its natural-language specification.

The Python code is shallowly embedded: pure parsing/transformation code
becomes Lean functions, the TTL cache becomes explicit state passing with a
natural-number clock, and the tenacity retry loop becomes a recursion over an
attempt oracle.  Python ints are modelled as Int, Python dicts as association
lists with Python's insert-or-overwrite semantics, and upstream JSON
responses as structures of optional fields (a missing key is none).
-/

namespace Futbin

/-- Game platform, from models.Platform (a StrEnum). -/
inductive Platform
  | PS
  | PC
  | XBOX
deriving DecidableEq

/-- The StrEnum value of a platform (models.py lines 9-14). -/
def Platform.value : Platform → String
  | .PS => "PS"
  | .PC => "PC"
  | .XBOX => "XB"

/-- A player identifier as accepted by the client: Python type `int | str`. -/
inductive Ident
  | int (n : Int)
  | str (s : String)
deriving DecidableEq

/-- Python `str(player_id)`: the string form used as request parameter,
cache-key component and result-dict key. -/
def Ident.toKey : Ident → String
  | .int n => toString n
  | .str s => s

/-- One entry of the upstream `getPlayersPrice` JSON response, i.e. the dict
found at `data[pid]["prices"][platform]`.  API fields are optional; `none`
models a missing key.  Numeric API fields are modelled as integers. -/
structure RawPrice where
  LCPrice : Option Int
  MinPrice : Option Int
  MaxPrice : Option Int
  updated : Option String
deriving DecidableEq

/-- The empty dict `{}` that `dict.get(key, {})` defaults to. -/
def RawPrice.empty : RawPrice := ⟨none, none, none, none⟩

/-- models.PlayerPrice: the typed price record (pydantic model with
defaults price=0, min_price=0, max_price=0, updated=""). -/
structure PlayerPrice where
  price : Int
  min_price : Int
  max_price : Int
  updated : String
deriving DecidableEq

/-- The zero-valued record produced from an empty response fragment. -/
def PlayerPrice.zero : PlayerPrice := ⟨0, 0, 0, ""⟩

/-- Python `int(data.get(k, 0) or 0)`: a missing key (and a falsy value,
which for integer-valued fields is just 0) maps to 0. -/
def pyIntOr0 : Option Int → Int
  | some n => n
  | none => 0

/-- models.PlayerPrice.from_api_response (models.py lines 40-48). -/
def PlayerPrice.from_api_response (data : RawPrice) : PlayerPrice :=
  { price := pyIntOr0 data.LCPrice
    min_price := pyIntOr0 data.MinPrice
    max_price := pyIntOr0 data.MaxPrice
    updated := data.updated.getD "" }

/-!
## Python dict model

`get_players_prices` builds a `dict[str, PlayerPrice]` by repeated
`result[pid_str] = ...` assignment and `get_players_prices_concurrent` merges
batch dicts with `dict.update`.  We model a Python dict as an association
list: assignment overwrites in place when the key is present (keeping its
position, as CPython does) and appends otherwise.
-/

/-- Python `d[k] = v`. -/
def dinsert (d : List (String × α)) (k : String) (v : α) : List (String × α) :=
  if d.any (fun p => p.1 == k) then
    d.map (fun p => if p.1 == k then (k, v) else p)
  else
    d ++ [(k, v)]

/-- Python `d.get(k)` / `k in d` lookup. -/
def dget (d : List (String × α)) (k : String) : Option α :=
  (d.find? (fun p => p.1 == k)).map Prod.snd

/-- The keys of a dict, in insertion order. -/
def dkeys (d : List (String × α)) : List String := d.map Prod.fst

/-- Python `d.update(e)`. -/
def dupdate (d e : List (String × α)) : List (String × α) :=
  e.foldl (fun acc p => dinsert acc p.1 p.2) d

/-!
## Upstream world

All façade operations are pure functions of the upstream responses, which we
package into one structure.  For the bulk price endpoint the server is
modelled as a database looked up per requested identifier, so that "identical
upstream response data" across different batchings is automatic.
-/

/-- models.PopularPlayer raw item of the `getPopularPlayers` response. -/
structure PopularRaw where
  ID : Option Int
  resource_id : Option Int
  name : Option String
  rating : Option Int
  ps_LCPrice : Option Int
  pc_LCPrice : Option Int
deriving DecidableEq

/-- models.PopularPlayer. -/
structure PopularPlayer where
  futbin_id : Int
  resource_id : Int
  name : String
  rating : Int
  price_ps : Int
  price_pc : Int
deriving DecidableEq

/-- Parsing of one popular-player item (client.py lines 391-401). -/
def PopularPlayer.from_api_response (d : PopularRaw) : PopularPlayer :=
  { futbin_id := pyIntOr0 d.ID
    resource_id := pyIntOr0 d.resource_id
    name := d.name.getD ""
    rating := pyIntOr0 d.rating
    price_ps := pyIntOr0 d.ps_LCPrice
    price_pc := pyIntOr0 d.pc_LCPrice }

/-- Raw item of the `getFilteredPlayers` / `currentTOTW` / `newPlayers`
responses, holding exactly the keys FullPlayer.from_api_response reads. -/
structure FullPlayerRaw where
  ID : Option Int
  playerid : Option Int
  resource_id : Option Int
  playername : Option String
  name : Option String
  common_name : Option String
  rating : Option Int
  position : Option String
  pos_all : Option String
  raretype : Option Int
  club : Option Int
  club_name : Option String
  nation : Option Int
  nation_name : Option String
  league : Option Int
  league_name : Option String
  pac : Option Int
  sho : Option Int
  pas : Option Int
  dri : Option Int
  defStat : Option Int
  phy : Option Int
  ps_LCPrice : Option Int
  pc_LCPrice : Option Int
  xbox_LCPrice : Option Int
  ps_MinPrice : Option Int
  ps_MaxPrice : Option Int
  pc_MinPrice : Option Int
  pc_MaxPrice : Option Int
deriving DecidableEq

/-- models.FullPlayer. -/
structure FullPlayer where
  futbin_id : Int
  player_id : Int
  resource_id : Int
  name : String
  common_name : String
  rating : Int
  position : String
  positions : String
  rare_type : Int
  club_id : Int
  club : String
  nation_id : Int
  nation : String
  league_id : Int
  league : String
  pace : Int
  shooting : Int
  passing : Int
  dribbling : Int
  defending : Int
  physical : Int
  price_ps : Int
  price_pc : Int
  price_xbox : Int
  min_price_ps : Int
  max_price_ps : Int
  min_price_pc : Int
  max_price_pc : Int
deriving DecidableEq

/-- Python `data.get("playername", "") or data.get("name", "")`. -/
def pyStrOr (a b : Option String) : String :=
  let x := a.getD ""
  if x = "" then b.getD "" else x

/-- models.FullPlayer.from_api_response (models.py lines 125-157).  The raw
field `defStat` models the response key named after the Lean keyword def. -/
def FullPlayer.from_api_response (d : FullPlayerRaw) : FullPlayer :=
  { futbin_id := pyIntOr0 d.ID
    player_id := pyIntOr0 d.playerid
    resource_id := pyIntOr0 d.resource_id
    name := pyStrOr d.playername d.name
    common_name := d.common_name.getD ""
    rating := pyIntOr0 d.rating
    position := d.position.getD ""
    positions := d.pos_all.getD ""
    rare_type := pyIntOr0 d.raretype
    club_id := pyIntOr0 d.club
    club := d.club_name.getD ""
    nation_id := pyIntOr0 d.nation
    nation := d.nation_name.getD ""
    league_id := pyIntOr0 d.league
    league := d.league_name.getD ""
    pace := pyIntOr0 d.pac
    shooting := pyIntOr0 d.sho
    passing := pyIntOr0 d.pas
    dribbling := pyIntOr0 d.dri
    defending := pyIntOr0 d.defStat
    physical := pyIntOr0 d.phy
    price_ps := pyIntOr0 d.ps_LCPrice
    price_pc := pyIntOr0 d.pc_LCPrice
    price_xbox := pyIntOr0 d.xbox_LCPrice
    min_price_ps := pyIntOr0 d.ps_MinPrice
    max_price_ps := pyIntOr0 d.ps_MaxPrice
    min_price_pc := pyIntOr0 d.pc_MinPrice
    max_price_pc := pyIntOr0 d.pc_MaxPrice }

/-- Raw club item of the `getLeaguesAndClubsAndroid` response. -/
structure ClubRaw where
  club_id : Option Int
  club_name : Option String
deriving DecidableEq

/-- Raw league item of the `getLeaguesAndClubsAndroid` response. -/
structure LeagueRaw where
  league_id : Option Int
  league_name : Option String
  clubs : List ClubRaw
deriving DecidableEq

/-- models.Club. -/
structure Club where
  club_id : Int
  name : String
deriving DecidableEq

/-- models.Club.from_api_response. -/
def Club.from_api_response (d : ClubRaw) : Club :=
  { club_id := pyIntOr0 d.club_id, name := d.club_name.getD "" }

/-- models.League. -/
structure League where
  league_id : Int
  name : String
  clubs : List Club
deriving DecidableEq

/-- models.League.from_api_response. -/
def League.from_api_response (d : LeagueRaw) : League :=
  { league_id := pyIntOr0 d.league_id
    name := d.league_name.getD ""
    clubs := d.clubs.map Club.from_api_response }

/-- Raw item of the `getCardVersions` response. -/
structure CardVersionRaw where
  version_name : Option String
  get : Option String
  img : Option String
deriving DecidableEq

/-- models.CardVersionInfo. -/
structure CardVersionInfo where
  name : String
  key : String
  img : String
deriving DecidableEq

/-- models.CardVersionInfo.from_api_response. -/
def CardVersionInfo.from_api_response (d : CardVersionRaw) : CardVersionInfo :=
  { name := d.version_name.getD ""
    key := d.get.getD ""
    img := d.img.getD "" }

/-- Raw `fetchPriceInformation` response (keys price, MinPrice, MaxPrice). -/
structure ResourcePriceRaw where
  price : Option Int
  MinPrice : Option Int
  MaxPrice : Option Int
deriving DecidableEq

/-- A query-parameter value: Python str or int. -/
inductive ParamVal
  | str (s : String)
  | int (n : Int)
deriving DecidableEq

/-- The upstream service, one typed response per endpoint.  The bulk price
endpoint is a per-identifier database: the response to a request for any
identifier list contains, under each requested id, the database row for that
id (this is what "identical upstream response data" means across batchings).
A `none` row models an id absent from the JSON response. -/
structure Upstream where
  playersPrice : String → Platform → Option RawPrice
  fetchPriceInformation : String → Platform → ResourcePriceRaw
  popularPlayers : List PopularRaw
  filteredPlayers : List (String × ParamVal) → List FullPlayerRaw
  currentTOTW : List FullPlayerRaw
  newPlayers : List FullPlayerRaw
  leaguesAndClubs : List LeagueRaw
  cardVersions : List CardVersionRaw

/-- `data.get(pid_str, dict()).get("prices", dict()).get(platform.value, dict())`
(client.py lines 251 and 328): any missing level yields the empty dict. -/
def Upstream.priceData (u : Upstream) (pidStr : String) (pf : Platform) : RawPrice :=
  (u.playersPrice pidStr pf).getD RawPrice.empty

/-- The record the client produces for one identifier. -/
def priceFor (u : Upstream) (pf : Platform) (pidStr : String) : PlayerPrice :=
  PlayerPrice.from_api_response (u.priceData pidStr pf)

/-!
## Bulk price lookup (client.py lines 303-371)

`get_players_prices` sends one request for the whole list and builds the
result dict by one assignment per input id.  The cache consultation wrapping
this computation is modelled separately (see `runOp` below); here we embed
the miss path, which is a pure function of the upstream database.
-/

/-- The loop of client.get_players_prices (lines 325-329). -/
def get_players_prices (u : Upstream) (ids : List Ident) (pf : Platform) :
    List (String × PlayerPrice) :=
  ids.foldl (fun acc pid => dinsert acc pid.toKey (priceFor u pf pid.toKey)) []

/-- `player_ids[i : i + batch_size] for i in range(0, len(player_ids), batch_size)`
(client.py line 361). -/
def pyBatches (ids : List α) (batchSize : Nat) : List (List α) :=
  (List.range' 0 ((ids.length + batchSize - 1) / batchSize) batchSize).map
    (fun i => (ids.drop i).take batchSize)

/-- client.get_players_prices_concurrent (lines 342-371): fetch every batch
(each through get_players_prices) and merge with `dict.update` in batch
order, which `asyncio.gather` preserves regardless of completion order.  The
semaphore bounding `max_concurrency` only schedules the independent batch
fetches and does not influence any value, so it has no counterpart here. -/
def get_players_prices_concurrent (u : Upstream) (ids : List Ident) (pf : Platform)
    (batchSize : Nat) : List (String × PlayerPrice) :=
  ((pyBatches ids batchSize).map (fun b => get_players_prices u b pf)).foldl dupdate []

/-!
## Search options (models.PlayerSearchOptions)
-/

/-- models.Foot (a StrEnum). -/
inductive Foot
  | left
  | right
deriving DecidableEq

/-- The StrEnum value of a foot. -/
def Foot.value : Foot → String
  | .left => "Left"
  | .right => "Right"

/-- models.PlayerSearchOptions (models.py lines 167-297): platform and page
are always set; every other field is optional with default None. -/
structure PlayerSearchOptions where
  platform : String := "PS"
  page : Int := 1
  sort : Option String := none
  order : Option String := none
  version : Option String := none
  position : Option (List String) := none
  nation_id : Option Int := none
  league_id : Option Int := none
  club_id : Option Int := none
  min_rating : Option Int := none
  max_rating : Option Int := none
  min_price : Option Int := none
  max_price : Option Int := none
  min_skills : Option Int := none
  max_skills : Option Int := none
  min_weak_foot : Option Int := none
  max_weak_foot : Option Int := none
  foot : Option Foot := none
  min_height : Option Int := none
  max_height : Option Int := none
  min_weight : Option Int := none
  max_weight : Option Int := none
  min_pace : Option Int := none
  max_pace : Option Int := none
  min_shooting : Option Int := none
  max_shooting : Option Int := none
  min_passing : Option Int := none
  max_passing : Option Int := none
  min_dribbling : Option Int := none
  max_dribbling : Option Int := none
  min_defending : Option Int := none
  max_defending : Option Int := none
  min_physical : Option Int := none
  max_physical : Option Int := none
  min_acceleration : Option Int := none
  max_acceleration : Option Int := none
  min_sprint_speed : Option Int := none
  max_sprint_speed : Option Int := none
  min_positioning : Option Int := none
  max_positioning : Option Int := none
  min_finishing : Option Int := none
  max_finishing : Option Int := none
  min_shot_power : Option Int := none
  max_shot_power : Option Int := none
  min_long_shots : Option Int := none
  max_long_shots : Option Int := none
  min_volleys : Option Int := none
  max_volleys : Option Int := none
  min_penalties : Option Int := none
  max_penalties : Option Int := none
  min_vision : Option Int := none
  max_vision : Option Int := none
  min_crossing : Option Int := none
  max_crossing : Option Int := none
  min_free_kick : Option Int := none
  max_free_kick : Option Int := none
  min_short_passing : Option Int := none
  max_short_passing : Option Int := none
  min_long_passing : Option Int := none
  max_long_passing : Option Int := none
  min_curve : Option Int := none
  max_curve : Option Int := none
  min_agility : Option Int := none
  max_agility : Option Int := none
  min_balance : Option Int := none
  max_balance : Option Int := none
  min_reactions : Option Int := none
  max_reactions : Option Int := none
  min_ball_control : Option Int := none
  max_ball_control : Option Int := none
  min_composure : Option Int := none
  max_composure : Option Int := none
  min_interceptions : Option Int := none
  max_interceptions : Option Int := none
  min_heading_accuracy : Option Int := none
  max_heading_accuracy : Option Int := none
  min_marking : Option Int := none
  max_marking : Option Int := none
  min_standing_tackle : Option Int := none
  max_standing_tackle : Option Int := none
  min_sliding_tackle : Option Int := none
  max_sliding_tackle : Option Int := none
  min_jumping : Option Int := none
  max_jumping : Option Int := none
  min_stamina : Option Int := none
  max_stamina : Option Int := none
  min_strength : Option Int := none
  max_strength : Option Int := none
  min_aggression : Option Int := none
  max_aggression : Option Int := none
  min_gk_diving : Option Int := none
  max_gk_diving : Option Int := none
  min_gk_handling : Option Int := none
  max_gk_handling : Option Int := none
  min_gk_kicking : Option Int := none
  max_gk_kicking : Option Int := none
  min_gk_positioning : Option Int := none
  max_gk_positioning : Option Int := none
  min_gk_reflexes : Option Int := none
  max_gk_reflexes : Option Int := none
deriving DecidableEq

/-- All fields left at their defaults. -/
def defaultSearchOptions : PlayerSearchOptions := {}

/-- `if self.sort:` — a str field passes Python truthiness when it is set
and non-empty. -/
def truthyStr (v : Option String) : Option ParamVal :=
  v.bind (fun s => if s = "" then none else some (.str s))

/-- `if self.nation_id:` — an int field passes truthiness when set and
non-zero. -/
def truthyInt (v : Option Int) : Option ParamVal :=
  v.bind (fun n => if n = 0 then none else some (.int n))

/-- `if self.position: params["position"] = ",".join(self.position)`. -/
def truthyList (v : Option (List String)) : Option ParamVal :=
  v.bind (fun l => if l = [] then none else some (.str (String.intercalate "," l)))

/-- PlayerSearchOptions._add_minmax_param (models.py 299-310): contributes
`min_key` when the min value is not None and `max_key` when the max value is
not None. -/
def minmaxSpec (key : String) (minVal maxVal : Option Int) :
    List (String × Option ParamVal) :=
  [("min_" ++ key, minVal.map ParamVal.int), ("max_" ++ key, maxVal.map ParamVal.int)]

/-- The optional parameters of PlayerSearchOptions.to_params (models.py
319-398), one entry per conditional assignment, in source order: `none` in
the second component means the field did not pass its guard and the key is
not emitted. -/
def PlayerSearchOptions.optSpec (o : PlayerSearchOptions) :
    List (String × Option ParamVal) :=
  [("sort", truthyStr o.sort),
   ("order", truthyStr o.order),
   ("version", truthyStr o.version),
   ("position", truthyList o.position),
   ("nation", truthyInt o.nation_id),
   ("league", truthyInt o.league_id),
   ("club", truthyInt o.club_id),
   ("foot", o.foot.map (fun f => .str f.value))]
  ++ minmaxSpec "rating" o.min_rating o.max_rating
  ++ minmaxSpec "price" o.min_price o.max_price
  ++ minmaxSpec "skills" o.min_skills o.max_skills
  ++ minmaxSpec "wf" o.min_weak_foot o.max_weak_foot
  ++ minmaxSpec "height" o.min_height o.max_height
  ++ minmaxSpec "weight" o.min_weight o.max_weight
  ++ minmaxSpec "Pace" o.min_pace o.max_pace
  ++ minmaxSpec "Shooting" o.min_shooting o.max_shooting
  ++ minmaxSpec "Passing" o.min_passing o.max_passing
  ++ minmaxSpec "Dribbling" o.min_dribbling o.max_dribbling
  ++ minmaxSpec "Defending" o.min_defending o.max_defending
  ++ minmaxSpec "Physicality" o.min_physical o.max_physical
  ++ minmaxSpec "Acceleration" o.min_acceleration o.max_acceleration
  ++ minmaxSpec "Sprintspeed" o.min_sprint_speed o.max_sprint_speed
  ++ minmaxSpec "Positioning" o.min_positioning o.max_positioning
  ++ minmaxSpec "Finishing" o.min_finishing o.max_finishing
  ++ minmaxSpec "Shotpower" o.min_shot_power o.max_shot_power
  ++ minmaxSpec "Longshots" o.min_long_shots o.max_long_shots
  ++ minmaxSpec "Volleys" o.min_volleys o.max_volleys
  ++ minmaxSpec "Penalties" o.min_penalties o.max_penalties
  ++ minmaxSpec "Vision" o.min_vision o.max_vision
  ++ minmaxSpec "Crossing" o.min_crossing o.max_crossing
  ++ minmaxSpec "Freekickaccuracy" o.min_free_kick o.max_free_kick
  ++ minmaxSpec "Shortpassing" o.min_short_passing o.max_short_passing
  ++ minmaxSpec "Longpassing" o.min_long_passing o.max_long_passing
  ++ minmaxSpec "Curve" o.min_curve o.max_curve
  ++ minmaxSpec "Agility" o.min_agility o.max_agility
  ++ minmaxSpec "Balance" o.min_balance o.max_balance
  ++ minmaxSpec "Reactions" o.min_reactions o.max_reactions
  ++ minmaxSpec "Ballcontrol" o.min_ball_control o.max_ball_control
  ++ minmaxSpec "Composure" o.min_composure o.max_composure
  ++ minmaxSpec "Interceptions" o.min_interceptions o.max_interceptions
  ++ minmaxSpec "Headingaccuracy" o.min_heading_accuracy o.max_heading_accuracy
  ++ minmaxSpec "Marking" o.min_marking o.max_marking
  ++ minmaxSpec "Standingtackle" o.min_standing_tackle o.max_standing_tackle
  ++ minmaxSpec "Slidingtackle" o.min_sliding_tackle o.max_sliding_tackle
  ++ minmaxSpec "Jumping" o.min_jumping o.max_jumping
  ++ minmaxSpec "Stamina" o.min_stamina o.max_stamina
  ++ minmaxSpec "Strength" o.min_strength o.max_strength
  ++ minmaxSpec "Aggression" o.min_aggression o.max_aggression
  ++ minmaxSpec "Gkdiving" o.min_gk_diving o.max_gk_diving
  ++ minmaxSpec "Gkhandling" o.min_gk_handling o.max_gk_handling
  ++ minmaxSpec "Gkkicking" o.min_gk_kicking o.max_gk_kicking
  ++ minmaxSpec "Gkpositioning" o.min_gk_positioning o.max_gk_positioning
  ++ minmaxSpec "Gkreflexes" o.min_gk_reflexes o.max_gk_reflexes

/-- PlayerSearchOptions.to_params (models.py 312-400).  The source builds a
dict by consecutive conditional assignments whose keys are pairwise distinct,
which over our dict model is exactly the base entries followed by the guarded
entries that fired, in source order. -/
def PlayerSearchOptions.to_params (o : PlayerSearchOptions) :
    List (String × ParamVal) :=
  [("platform", ParamVal.str o.platform), ("page", ParamVal.int o.page)]
  ++ o.optSpec.filterMap (fun p => p.2.map (fun v => (p.1, v)))

/-!
## Response cache (cachetools TTLCache, client.py line 125 and 182-195)

The client stores parsed results in TTLCache(maxsize, ttl).  We model the
store as a list of entries stamped with their expiry time now + ttl, read
with cachetools' expiry rule: an entry is served only while now < expires
(so a read at or after insertion time + ttl is a miss).  The maxsize bound
and the proactive expire() sweep on mutation only remove entries — the sweep
removes exactly the entries reads already treat as absent — and are not
modelled.
-/

/-- The store: one `(value, expires)` pair per key, mapping-shaped like a
Python dict. -/
abbrev TTLStore (α : Type) : Type := List (String × (α × Nat))

/-- TTLCache `cache[key] = value` at time `now`: overwrite in place or
append, stamping expiry now + ttl. -/
def ttlSet (c : TTLStore α) (now ttl : Nat) (k : String) (v : α) : TTLStore α :=
  dinsert c k (v, now + ttl)

/-- TTLCache `cache.get(key)` at time `now`: an entry whose expiry has been
reached (now ≥ expires) is treated as absent. -/
def ttlGet (c : TTLStore α) (now : Nat) (k : String) : Option α :=
  match dget c k with
  | some (v, expires) => if now < expires then some v else none
  | none => none

/-- Default client configuration constants (client.py lines 30-34). -/
def DEFAULT_RETRY_ATTEMPTS : Nat := 3

def DEFAULT_RETRY_DELAY : Nat := 2

def DEFAULT_CACHE_TTL : Nat := 180

/-!
## The client façade as a state machine

Every JSON-backed façade method of FutbinClient has the shape: derive a
cache key, return a cached value on hit, otherwise issue one `_api_get`
request, parse it, populate the cache and return — except `search_players`
(client.py 414-439), which performs no cache access at all.  We embed the
method set as an operation type and one step function; the two HTML-scraping
methods (`get_chemistry_styles`, `get_manager_cards`) also follow the cached
shape but their DOM parsing is outside this embedding.
-/

/-- A parsed façade result (the values the client caches and returns). -/
inductive Value
  | price (p : PlayerPrice)
  | prices (d : List (String × PlayerPrice))
  | populars (l : List PopularPlayer)
  | players (l : List FullPlayer)
  | leagues (l : List League)
  | versions (l : List CardVersionInfo)
deriving DecidableEq

/-- One façade call with its arguments. -/
inductive Op
  | get_player_price (player_id : Ident) (platform : Platform)
  | get_player_price_by_resource_id (resource_id : Ident) (platform : Platform)
  | get_players_prices (player_ids : List Ident) (platform : Platform)
  | get_popular_players
  | search_players (options : Option PlayerSearchOptions)
  | get_totw
  | get_latest_players
  | get_leagues_and_clubs
  | get_card_versions
deriving DecidableEq

/-- FutbinClient._get_cache_key (client.py 177-180): method name and
stringified positional arguments joined with ":".  `none` for
search_players, which never derives a key.  For get_players_prices the ids
are first joined with "," (client.py line 317). -/
def Op.cacheKey : Op → Option String
  | .get_player_price pid pf =>
      some ("get_player_price:" ++ pid.toKey ++ ":" ++ pf.value)
  | .get_player_price_by_resource_id rid pf =>
      some ("get_player_price_by_resource_id:" ++ rid.toKey ++ ":" ++ pf.value)
  | .get_players_prices ids pf =>
      some ("get_players_prices:" ++ String.intercalate "," (ids.map Ident.toKey)
        ++ ":" ++ pf.value)
  | .get_popular_players => some "get_popular_players"
  | .search_players _ => none
  | .get_totw => some "get_totw"
  | .get_latest_players => some "get_latest_players"
  | .get_leagues_and_clubs => some "get_leagues_and_clubs"
  | .get_card_versions => some "get_card_versions"

/-- Whether the method consults and populates the response cache. -/
def Op.usesCache (op : Op) : Bool := op.cacheKey.isSome

/-- search_players' parameter construction (client.py 428-431); the kwargs
escape hatch of the no-options call is not modelled beyond its defaults. -/
def searchParams : Option PlayerSearchOptions → List (String × ParamVal)
  | some o => o.to_params
  | none => [("platform", ParamVal.str "PS"), ("page", ParamVal.int 1)]

/-- The cache-miss computation of each façade method: one upstream request
parsed into the typed result (the for-loops over `data.get("data", [])` in
client.py). -/
def Op.compute (u : Upstream) : Op → Value
  | .get_player_price pid pf => .price (priceFor u pf pid.toKey)
  | .get_player_price_by_resource_id rid pf =>
      let d := u.fetchPriceInformation rid.toKey pf
      .price ⟨pyIntOr0 d.price, pyIntOr0 d.MinPrice, pyIntOr0 d.MaxPrice, ""⟩
  | .get_players_prices ids pf => .prices (Futbin.get_players_prices u ids pf)
  | .get_popular_players => .populars (u.popularPlayers.map PopularPlayer.from_api_response)
  | .search_players o => .players ((u.filteredPlayers (searchParams o)).map FullPlayer.from_api_response)
  | .get_totw => .players (u.currentTOTW.map FullPlayer.from_api_response)
  | .get_latest_players => .players (u.newPlayers.map FullPlayer.from_api_response)
  | .get_leagues_and_clubs => .leagues (u.leaguesAndClubs.map League.from_api_response)
  | .get_card_versions => .versions (u.cardVersions.map CardVersionInfo.from_api_response)

/-- The mutable client state relevant to results: the response cache and its
configuration (FutbinClient.__init__, client.py 110-125). -/
structure ClientState where
  cache : TTLStore Value
  enable_cache : Bool
  cache_ttl : Nat
deriving DecidableEq

/-- FutbinClient._get_from_cache (client.py 182-186). -/
def getFromCache (s : ClientState) (now : Nat) (k : String) : Option Value :=
  if s.enable_cache then ttlGet s.cache now k else none

/-- FutbinClient._set_to_cache (client.py 188-191). -/
def setToCache (s : ClientState) (now : Nat) (k : String) (v : Value) : ClientState :=
  if s.enable_cache then { s with cache := ttlSet s.cache now s.cache_ttl k v } else s

/-- The observable outcome of one façade call: returned value, next client
state, and how many upstream requests the call issued. -/
structure OpResult where
  value : Value
  state : ClientState
  requests : Nat
deriving DecidableEq

/-- One façade call at time `now`: consult the cache (when the method uses
it), return immediately on a hit, otherwise compute from one upstream
request and populate the cache before returning. -/
def runOp (u : Upstream) (s : ClientState) (now : Nat) (op : Op) : OpResult :=
  match op.cacheKey with
  | some k =>
    match getFromCache s now k with
    | some v => ⟨v, s, 0⟩
    | none => ⟨op.compute u, setToCache s now k (op.compute u), 1⟩
  | none => ⟨op.compute u, s, 1⟩

/-- A sequence of façade calls with their times, threading the client state:
returns the values in call order and the total number of upstream requests. -/
def runTrace (u : Upstream) : ClientState → List (Nat × Op) → List Value × Nat
  | _, [] => ([], 0)
  | s, (t, op) :: rest =>
    let r := runOp u s t op
    let (vs, n) := runTrace u r.state rest
    (r.value :: vs, r.requests + n)

/-!
## Retry policy (tenacity decorator on _api_get/_web_get, client.py 201-218)
-/

/-- Failure kinds of one transport attempt: httpx.TimeoutException and other
httpx.RequestError values are the retryable kinds; raise_for_status errors
(httpx.HTTPStatusError, which is not a RequestError) and JSON decoding
failures are not retryable. -/
inductive ApiError
  | timeout
  | connectionFailed
  | httpStatus (code : Nat)
  | parseFailure
deriving DecidableEq

/-- tenacity retry_if_exception_type((httpx.RequestError, httpx.TimeoutException)). -/
def ApiError.retryable : ApiError → Bool
  | .timeout => true
  | .connectionFailed => true
  | .httpStatus _ => false
  | .parseFailure => false

/-- What the decorated coroutine finally raises: the original exception when
tenacity declines to retry it, or — once stop_after_attempt is reached — a
tenacity.RetryError holding the last attempt (the decorator does not set
reraise, so tenacity's default wrapping applies). -/
inductive RetryOutcomeErr
  | raw (e : ApiError)
  | retryError (last : ApiError)
deriving DecidableEq

/-- Trace of one decorated call: final outcome, number of attempts actually
executed, and the sleeps performed between attempts. -/
structure RetryRun (α : Type) where
  outcome : Except RetryOutcomeErr α
  attemptsMade : Nat
  delays : List Nat

/-- The tenacity loop: `attempts i` is the result of the i-th execution of
the wrapped coroutine; `remaining` counts the retries still admitted by
stop_after_attempt; `wait_fixed wait` sleeps between attempts. -/
def retryLoop (attempts : Nat → Except ApiError α) (wait : Nat) :
    Nat → Nat → List Nat → RetryRun α
  | i, remaining, delays =>
    match attempts i with
    | .ok a => ⟨.ok a, i, delays⟩
    | .error e =>
      if e.retryable then
        match remaining with
        | 0 => ⟨.error (.retryError e), i, delays⟩
        | r + 1 => retryLoop attempts wait (i + 1) r (delays ++ [wait])
      else ⟨.error (.raw e), i, delays⟩

/-- The retry behaviour of _api_get: stop_after_attempt(3), wait_fixed(2),
i.e. at most 3 total attempts with a fixed sleep of 2 between them. -/
def api_get_retry (attempts : Nat → Except ApiError α) : RetryRun α :=
  retryLoop attempts DEFAULT_RETRY_DELAY 1 (DEFAULT_RETRY_ATTEMPTS - 1) []

/-!
## Price text parsing (FutbinClient._parse_price_text, client.py 557-569)

String manipulation is modelled on character lists.  Python floats are
modelled as exact rationals extended with the special values an input string
can denote (inf, -inf, nan); IEEE rounding of decimal literals, overflow of
huge finite literals to inf, and digit-group underscores are not modelled.
-/

/-- The whitespace stripped by Python str.strip(). -/
def pySpace (c : Char) : Bool :=
  c == ' ' || c == '\t' || c == '\n' || c == '\r' || c == '\x0b' || c == '\x0c'

/-- Python str.strip(). -/
def stripChars (cs : List Char) : List Char :=
  ((cs.dropWhile pySpace).reverse.dropWhile pySpace).reverse

/-- Python str.upper() (ASCII). -/
def upperChars (cs : List Char) : List Char := cs.map Char.toUpper

/-- Python str.replace(",", ""). -/
def removeCommas (cs : List Char) : List Char := cs.filter (fun c => c ≠ ',')

/-- The numeric value of a digit run. -/
def digitsToNat (ds : List Char) : Nat :=
  ds.foldl (fun a c => 10 * a + (c.toNat - '0'.toNat)) 0

/-- A Python float value as far as this code can observe it. -/
inductive PyFloat
  | finite (q : ℚ)
  | inf
  | negInf
  | nan
deriving DecidableEq

/-- Decimal part of Python float(): digits with optional fraction and
optional exponent; at least one mantissa digit; nothing may follow. -/
def parseDecimal (sign : Int) (cs : List Char) : Option PyFloat :=
  let intPart := cs.takeWhile Char.isDigit
  let rest1 := cs.dropWhile Char.isDigit
  let fracPart := match rest1 with
    | '.' :: t => t.takeWhile Char.isDigit
    | _ => []
  let rest2 := match rest1 with
    | '.' :: t => t.dropWhile Char.isDigit
    | _ => rest1
  if intPart = [] ∧ fracPart = [] then none
  else
    let mant : ℚ :=
      (digitsToNat intPart : ℚ) + (digitsToNat fracPart : ℚ) / ((10 : ℚ) ^ fracPart.length)
    match rest2 with
    | [] => some (.finite ((sign : ℚ) * mant))
    | e :: t =>
      if e.toUpper = 'E' then
        let esign : Int := match t with
          | '-' :: _ => -1
          | _ => 1
        let t2 := match t with
          | '+' :: r => r
          | '-' :: r => r
          | r => r
        let eds := t2.takeWhile Char.isDigit
        let rest3 := t2.dropWhile Char.isDigit
        if eds = [] ∨ rest3 ≠ [] then none
        else some (.finite ((sign : ℚ) * mant * (10 : ℚ) ^ (esign * (digitsToNat eds : Int))))
      else none

/-- Python float(str): strips whitespace, takes an optional sign, accepts
the special spellings inf/infinity/nan case-insensitively, otherwise a
decimal literal; `none` models the ValueError float() raises. -/
def pyFloatOfChars (cs : List Char) : Option PyFloat :=
  let cs1 := stripChars cs
  let sign : Int := match cs1 with
    | '-' :: _ => -1
    | _ => 1
  let rest := match cs1 with
    | '+' :: r => r
    | '-' :: r => r
    | r => r
  let up := upperChars rest
  if up = "INF".toList ∨ up = "INFINITY".toList then
    some (if sign = 1 then .inf else .negInf)
  else if up = "NAN".toList then some .nan
  else parseDecimal sign rest

/-- Python int() on a float truncates toward zero. -/
def pyTrunc (q : ℚ) : Int :=
  if q < 0 then -((-q).floor) else q.floor

/-- The exception kinds that can escape _parse_price_text: its handler
catches ValueError and TypeError, but int() of an infinite float raises
OverflowError, which it does not catch. -/
inductive PyErr
  | overflowError
deriving DecidableEq

/-- `int(float(cs) * scale)`: `ok none` models a caught ValueError (from
float() on an unparseable string or int() on nan). -/
def pyIntFloatScaled (cs : List Char) (scale : ℚ) : Except PyErr (Option Int) :=
  match pyFloatOfChars cs with
  | none => .ok none
  | some (.finite q) => .ok (some (pyTrunc (q * scale)))
  | some .nan => .ok none
  | some .inf => .error .overflowError
  | some .negInf => .error .overflowError

/-- The try-block of _parse_price_text after normalisation: dispatch on a
trailing K or M, scale accordingly, and absorb caught errors into 0. -/
def parsePriceCore (cs : List Char) : Except PyErr Int :=
  let toRes : Except PyErr (Option Int) → Except PyErr Int := fun r =>
    match r with
    | .ok (some n) => .ok n
    | .ok none => .ok 0
    | .error e => .error e
  if cs.getLast? = some 'K' then toRes (pyIntFloatScaled cs.dropLast 1000)
  else if cs.getLast? = some 'M' then toRes (pyIntFloatScaled cs.dropLast 1000000)
  else toRes (pyIntFloatScaled cs 1)

/-- FutbinClient._parse_price_text: empty input short-circuits to 0,
otherwise the text is stripped, uppercased and de-commaed before the suffix
dispatch. -/
def parse_price_text (text : String) : Except PyErr Int :=
  if text = "" then .ok 0
  else parsePriceCore (removeCommas (upperChars (stripChars text.toList)))

/-!
## Concrete fixtures used by the witness theorems
-/

/-- A small upstream: the bulk price database knows ids "101" and "102" on
PS and nothing else; all other endpoints are empty. -/
def sampleUpstream : Upstream :=
  { playersPrice := fun s pf =>
      match pf with
      | .PS =>
        if s = "101" then some ⟨some 500, some 450, some 550, some "now"⟩
        else if s = "102" then some ⟨some 700, some 650, some 750, some "now"⟩
        else none
      | _ => none
    fetchPriceInformation := fun _ _ => ⟨none, none, none⟩
    popularPlayers := []
    filteredPlayers := fun _ => []
    currentTOTW := []
    newPlayers := []
    leaguesAndClubs := []
    cardVersions := [] }

/-- A fresh client state with the default TTL and the given cache switch. -/
def freshState (enable : Bool) : ClientState := ⟨[], enable, DEFAULT_CACHE_TTL⟩

/-!
## Lookup lemmas for the dict model
-/

theorem dget_nil (k : String) : dget ([] : List (String × α)) k = none := rfl

theorem dget_cons (p : String × α) (d : List (String × α)) (k : String) :
    dget (p :: d) k = if p.1 = k then some p.2 else dget d k := by
  unfold dget
  by_cases h : p.1 = k
  · rw [List.find?_cons_of_pos _ (by simpa using h), if_pos h]
    rfl
  · rw [List.find?_cons_of_neg _ (by simpa using h), if_neg h]

theorem dget_overwriteMap (d : List (String × α)) (k k' : String) (v : α) :
    dget (d.map (fun p => if p.1 == k then (k, v) else p)) k' =
      if k' = k then (dget d k).map (fun _ => v) else dget d k' := by
  simp only [beq_iff_eq]
  induction d with
  | nil => by_cases hk : k' = k <;> simp [dget_nil, hk]
  | cons p d ih =>
    by_cases hp : p.1 = k
    · have hhead : (if p.1 = k then (k, v) else p) = (k, v) := by simp [hp]
      by_cases hk : k' = k
      · subst hk
        simp [List.map_cons, hhead, dget_cons, hp, ih]
      · have hkk' : ¬ (k = k') := fun h => hk h.symm
        have hpk' : ¬ p.1 = k' := by rw [hp]; exact hkk'
        simp [List.map_cons, hhead, dget_cons, hk, hkk', hpk', ih]
    · have hhead : (if p.1 = k then (k, v) else p) = p := by simp [hp]
      by_cases hpk' : p.1 = k'
      · have hk : ¬ k' = k := fun h => hp (hpk'.trans h)
        simp [List.map_cons, hhead, dget_cons, hpk', hk]
      · simp [List.map_cons, hhead, dget_cons, hpk', hp, ih]

theorem any_key_iff_dget_isSome (d : List (String × α)) (k : String) :
    d.any (fun p => p.1 == k) = true ↔ (dget d k).isSome := by
  induction d with
  | nil => simp [dget_nil]
  | cons p d ih =>
    by_cases hp : p.1 = k
    · simp [dget_cons, hp]
    · simp [dget_cons, hp, ih]

theorem dget_dinsert (d : List (String × α)) (k k' : String) (v : α) :
    dget (dinsert d k v) k' = if k' = k then some v else dget d k' := by
  unfold dinsert
  by_cases hmem : d.any (fun p => p.1 == k) = true
  · rw [if_pos hmem, dget_overwriteMap]
    by_cases hk : k' = k
    · rw [if_pos hk, if_pos hk]
      rw [any_key_iff_dget_isSome] at hmem
      rcases h : dget d k with _ | w
      · rw [h] at hmem; simp at hmem
      · rfl
    · rw [if_neg hk, if_neg hk]
  · rw [if_neg hmem]
    have hnone : dget d k = none := by
      rcases h : dget d k with _ | w
      · rfl
      · exact absurd (any_key_iff_dget_isSome d k |>.mpr (by simp [h])) hmem
    unfold dget at hnone ⊢
    rw [List.find?_append]
    rcases h : List.find? (fun p => p.1 == k) d with _ | p
    · by_cases hk : k' = k
      · subst hk
        rw [List.find?_eq_none] at h
        have : List.find? (fun p => p.1 == k') d = none := List.find?_eq_none.mpr h
        simp [this, List.find?, hnone]
      · rcases h' : List.find? (fun p => p.1 == k') d with _ | q
        · have hkk' : (k == k') = false := by
            simp only [beq_eq_false_iff_ne, ne_eq]
            exact fun hh => hk hh.symm
          simp [h', List.find?, hkk', hk]
        · simp [h', hk]
    · rw [h] at hnone; simp at hnone

theorem dget_eq_none_iff (d : List (String × α)) (k : String) :
    dget d k = none ↔ k ∉ dkeys d := by
  induction d with
  | nil => simp [dget_nil, dkeys]
  | cons p d ih =>
    unfold dkeys at ih ⊢
    by_cases hp : p.1 = k
    · simp [dget_cons, hp]
    · have hp' : ¬ k = p.1 := fun h => hp h.symm
      simp [dget_cons, hp, hp', ih]

theorem dget_isSome_iff (d : List (String × α)) (k : String) :
    (dget d k).isSome ↔ k ∈ dkeys d := by
  rw [← not_iff_not, ← dget_eq_none_iff d k]
  cases dget d k <;> simp

/-!
## Characterization of the bulk result dicts
-/

theorem dkeys_dinsert (d : List (String × α)) (k : String) (v : α) :
    dkeys (dinsert d k v) = if k ∈ dkeys d then dkeys d else dkeys d ++ [k] := by
  unfold dinsert
  by_cases hmem : d.any (fun p => p.1 == k) = true
  · have hk : k ∈ dkeys d := by
      rw [← dget_isSome_iff, ← any_key_iff_dget_isSome]
      exact hmem
    rw [if_pos hmem, if_pos hk]
    unfold dkeys
    rw [List.map_map]
    refine List.map_congr_left ?_
    intro p _
    by_cases hp : p.1 = k
    · simp [hp]
    · simp [hp]
  · have hk : k ∉ dkeys d := by
      rw [← dget_isSome_iff, ← any_key_iff_dget_isSome]
      exact hmem
    rw [if_neg hmem, if_neg hk]
    unfold dkeys
    simp

theorem dkeys_dinsert_nodup (d : List (String × α)) (k : String) (v : α)
    (h : (dkeys d).Nodup) : (dkeys (dinsert d k v)).Nodup := by
  rw [dkeys_dinsert]
  by_cases hk : k ∈ dkeys d
  · rwa [if_pos hk]
  · rw [if_neg hk]
    simp [List.nodup_append, h, hk]

theorem dget_dupdate (e : List (String × α)) (he : (dkeys e).Nodup) :
    ∀ (d : List (String × α)) (k : String),
      dget (dupdate d e) k = (dget e k).or (dget d k) := by
  induction e with
  | nil => intro d k; simp [dupdate, dget_nil]
  | cons p e ih =>
    intro d k
    have he' : (dkeys e).Nodup := by
      unfold dkeys at he ⊢
      exact (List.nodup_cons.mp he).2
    have hphead : p.1 ∉ dkeys e := by
      unfold dkeys at he ⊢
      exact (List.nodup_cons.mp he).1
    show dget (dupdate (dinsert d p.1 p.2) e) k = _
    rw [ih he', dget_dinsert, dget_cons]
    by_cases hp : p.1 = k
    · subst hp
      have : dget e p.1 = none := (dget_eq_none_iff e p.1).mpr hphead
      simp [this]
    · have hk : ¬ k = p.1 := fun h => hp h.symm
      rw [if_neg hp, if_neg hk]

/-- What the sequential bulk lookup assigns: looping over the ids, the result
holds `priceFor` under every requested key and nothing else. -/
theorem get_players_prices_foldl_get (u : Upstream) (pf : Platform) :
    ∀ (ids : List Ident) (acc : List (String × PlayerPrice)) (k : String),
      dget (ids.foldl (fun a pid => dinsert a pid.toKey (priceFor u pf pid.toKey)) acc) k =
        if k ∈ ids.map Ident.toKey then some (priceFor u pf k) else dget acc k := by
  intro ids
  induction ids with
  | nil => intro acc k; simp
  | cons pid ids ih =>
    intro acc k
    rw [List.foldl_cons, ih]
    by_cases hmem : k ∈ ids.map Ident.toKey
    · simp [hmem]
    · rw [if_neg hmem, dget_dinsert]
      by_cases hk : k = pid.toKey
      · subst hk
        simp [hmem]
      · have hcons : ¬ (k ∈ List.map Ident.toKey (pid :: ids)) := by
          simp only [List.map_cons, List.mem_cons]
          rintro (h | h)
          · exact hk h
          · exact hmem h
        rw [if_neg hk, if_neg hcons]

theorem get_players_prices_get (u : Upstream) (ids : List Ident) (pf : Platform)
    (k : String) :
    dget (get_players_prices u ids pf) k =
      if k ∈ ids.map Ident.toKey then some (priceFor u pf k) else none := by
  unfold get_players_prices
  rw [get_players_prices_foldl_get, dget_nil]

theorem get_players_prices_nodup (u : Upstream) (ids : List Ident) (pf : Platform) :
    (dkeys (get_players_prices u ids pf)).Nodup := by
  unfold get_players_prices
  have : ∀ (l : List Ident) (acc : List (String × PlayerPrice)),
      (dkeys acc).Nodup →
      (dkeys (l.foldl (fun a pid => dinsert a pid.toKey (priceFor u pf pid.toKey)) acc)).Nodup := by
    intro l
    induction l with
    | nil => intro acc h; exact h
    | cons pid l ih =>
      intro acc h
      exact ih _ (dkeys_dinsert_nodup _ _ _ h)
  exact this ids [] (by simp [dkeys])

/-!
## The batch split and merge
-/

theorem range'_shift (step : Nat) : ∀ (m s : Nat),
    List.range' s m step = (List.range' 0 m step).map (s + ·) := by
  intro m
  induction m with
  | zero => intro s; simp
  | succ m ih =>
    intro s
    calc List.range' s (m + 1) step
        = s :: List.range' (s + step) m step := List.range'_succ s m step
      _ = s :: (List.range' 0 m step).map ((s + step) + ·) := by rw [ih (s + step)]
      _ = (List.range' 0 (m + 1) step).map (s + ·) := by
          rw [List.range'_succ, Nat.zero_add, ih step, List.map_cons, List.map_map]
          refine congrArg₂ List.cons (by omega) ?_
          refine List.map_congr_left ?_
          intro x _
          simp only [Function.comp_apply]
          omega

theorem pyBatches_cons (ids : List α) (bs : Nat) (hbs : 0 < bs) (hne : ids ≠ []) :
    pyBatches ids bs = ids.take bs :: pyBatches (ids.drop bs) bs := by
  unfold pyBatches
  have hlen : 0 < ids.length := List.length_pos.mpr hne
  have hn : (ids.length + bs - 1) / bs = (ids.length - 1) / bs + 1 := by
    have h1 : ids.length + bs - 1 = (ids.length - 1) + bs := by omega
    rw [h1, Nat.add_div_right _ hbs]
  have hdrop : (ids.drop bs).length = ids.length - bs := List.length_drop bs ids
  have hn' : ((ids.drop bs).length + bs - 1) / bs = (ids.length - 1) / bs := by
    rw [hdrop]
    rcases le_or_lt ids.length bs with hle | hlt
    · have h1 : ids.length - bs = 0 := by omega
      rw [h1]
      rw [Nat.div_eq_of_lt (by omega), Nat.div_eq_of_lt (by omega)]
    · have h1 : ids.length - bs + bs - 1 = ids.length - 1 := by omega
      rw [h1]
  rw [hn, hn', List.range'_succ, Nat.zero_add, List.map_cons, List.drop_zero,
    range'_shift bs _ bs, List.map_map]
  refine congrArg₂ List.cons rfl ?_
  refine List.map_congr_left ?_
  intro j _
  simp only [Function.comp_apply]
  rw [List.drop_drop, Nat.add_comm bs j]

theorem pyBatches_flatten (bs : Nat) (hbs : 0 < bs) :
    ∀ (ids : List α), (pyBatches ids bs).flatten = ids := by
  have main : ∀ (N : Nat) (ids : List α), ids.length ≤ N →
      (pyBatches ids bs).flatten = ids := by
    intro N
    induction N with
    | zero =>
      intro ids h
      have hids : ids = [] := List.eq_nil_of_length_eq_zero (Nat.le_zero.mp h)
      subst hids
      have hz : ((List.length ([] : List α)) + bs - 1) / bs = 0 :=
        Nat.div_eq_of_lt (by simp; omega)
      unfold pyBatches
      rw [hz]
      simp
    | succ N ih =>
      intro ids h
      rcases eq_or_ne ids [] with rfl | hne
      · have hz : ((List.length ([] : List α)) + bs - 1) / bs = 0 :=
          Nat.div_eq_of_lt (by simp; omega)
        unfold pyBatches
        rw [hz]
        simp
      · rw [pyBatches_cons ids bs hbs hne, List.flatten_cons,
          ih (ids.drop bs) (by
            have : 0 < ids.length := List.length_pos.mpr hne
            rw [List.length_drop]
            omega)]
        exact List.take_append_drop bs ids
  intro ids
  exact main ids.length ids (Nat.le_refl _)

/-- The concurrent merge assigns `priceFor` under every key of every batch
and nothing else; since every batch result agrees on common keys, the merge
is insensitive to the order in which batch results arrive. -/
theorem concurrent_foldl_get (u : Upstream) (pf : Platform) :
    ∀ (bss : List (List Ident)) (acc : List (String × PlayerPrice)) (k : String),
      (dget acc k = none ∨ dget acc k = some (priceFor u pf k)) →
      dget ((bss.map (fun b => get_players_prices u b pf)).foldl dupdate acc) k =
        if k ∈ bss.flatten.map Ident.toKey then some (priceFor u pf k)
        else dget acc k := by
  intro bss
  induction bss with
  | nil => intro acc k _; simp
  | cons b bss ih =>
    intro acc k hacc
    rw [List.map_cons, List.foldl_cons]
    have hb := dget_dupdate (get_players_prices u b pf) (get_players_prices_nodup u b pf) acc k
    have hbg := get_players_prices_get u b pf k
    have hstep : dget (dupdate acc (get_players_prices u b pf)) k = none ∨
        dget (dupdate acc (get_players_prices u b pf)) k = some (priceFor u pf k) := by
      rw [hb, hbg]
      by_cases hmem : k ∈ b.map Ident.toKey
      · right; simp [hmem, Option.or]
      · rw [if_neg hmem]
        rcases hacc with h | h <;> simp [h, Option.or]
    rw [ih _ k hstep]
    by_cases hmem : k ∈ bss.flatten.map Ident.toKey
    · have hcons : k ∈ (b :: bss).flatten.map Ident.toKey := by
        simp only [List.flatten_cons, List.map_append, List.mem_append]
        exact Or.inr hmem
      rw [if_pos hmem, if_pos hcons]
    · rw [if_neg hmem, hb, hbg]
      by_cases hmemb : k ∈ b.map Ident.toKey
      · have hcons : k ∈ (b :: bss).flatten.map Ident.toKey := by
          simp only [List.flatten_cons, List.map_append, List.mem_append]
          exact Or.inl hmemb
        rw [if_pos hmemb, if_pos hcons]
        rfl
      · have hno : ¬ k ∈ (b :: bss).flatten.map Ident.toKey := by
          simp only [List.flatten_cons, List.map_append, List.mem_append]
          rintro (h | h)
          · exact hmemb h
          · exact hmem h
        rw [if_neg hmemb, if_neg hno]
        rfl


/-!
## Claim theorems
-/

/-- C1: for every identifier list, platform and batch_size > 0 (the
max_concurrency semaphore only schedules the independent batch fetches and
influences no value), and identical upstream response data,
get_players_prices_concurrent returns a mapping with exactly the same keys
and value-identical PlayerPrice records as the sequential get_players_prices
on the whole list; the merge is insensitive to batch completion order
because gather merges in fixed batch order and all batch results agree on
common keys. -/
theorem C1_concurrent_equals_sequential (u : Upstream) (ids : List Ident)
    (pf : Platform) (batchSize : Nat) (hbs : 0 < batchSize) (k : String) :
    dget (get_players_prices_concurrent u ids pf batchSize) k =
      dget (get_players_prices u ids pf) k ∧
    (k ∈ dkeys (get_players_prices_concurrent u ids pf batchSize) ↔
      k ∈ dkeys (get_players_prices u ids pf)) := by
  have h1 : dget (get_players_prices_concurrent u ids pf batchSize) k =
      if k ∈ ids.map Ident.toKey then some (priceFor u pf k) else none := by
    unfold get_players_prices_concurrent
    rw [concurrent_foldl_get u pf (pyBatches ids batchSize) [] k (Or.inl (dget_nil k)),
      pyBatches_flatten batchSize hbs ids, dget_nil]
  have h2 := get_players_prices_get u ids pf k
  constructor
  · rw [h1, h2]
  · rw [← dget_isSome_iff, ← dget_isSome_iff, h1, h2]

/-- Witness for C1 at a concrete input: three ids split into batches of two
against the sample upstream agree with the sequential result. -/
theorem C1_concurrent_equals_sequential_witness :
    dget (get_players_prices_concurrent sampleUpstream
        [Ident.int 101, Ident.int 102, Ident.int 103] Platform.PS 2) "101" =
      dget (get_players_prices sampleUpstream
        [Ident.int 101, Ident.int 102, Ident.int 103] Platform.PS) "101" ∧
    dget (get_players_prices sampleUpstream
        [Ident.int 101, Ident.int 102, Ident.int 103] Platform.PS) "101" =
      some ⟨500, 450, 550, "now"⟩ :=
  ⟨(C1_concurrent_equals_sequential sampleUpstream
      [Ident.int 101, Ident.int 102, Ident.int 103] Platform.PS 2 (by decide) "101").1,
    by decide⟩

/-- C5: a cache entry inserted at time T is a hit for any read at time
< T + ttl and is treated as absent (a miss) for any read at time ≥ T + ttl,
so no read ever returns a value older than the TTL. -/
theorem C5_ttl_expiry (c : TTLStore α) (ttl T now : Nat) (k : String) (v : α) :
    ttlGet (ttlSet c T ttl k v) now k = if now < T + ttl then some v else none := by
  unfold ttlGet ttlSet
  rw [dget_dinsert]
  simp

/-- C6: the sequential bulk lookup returns exactly one entry per distinct
input identifier — nothing is silently dropped — and every identifier the
upstream has no row for maps to the zero-valued record. -/
theorem C6_no_silent_drop (u : Upstream) (ids : List Ident) (pf : Platform) :
    (dkeys (get_players_prices u ids pf)).Nodup ∧
    (∀ k, k ∈ dkeys (get_players_prices u ids pf) ↔ k ∈ ids.map Ident.toKey) ∧
    (∀ pid ∈ ids, u.playersPrice pid.toKey pf = none →
      dget (get_players_prices u ids pf) pid.toKey = some PlayerPrice.zero) := by
  refine ⟨get_players_prices_nodup u ids pf, ?_, ?_⟩
  · intro k
    rw [← dget_isSome_iff, get_players_prices_get]
    by_cases hmem : k ∈ ids.map Ident.toKey <;> simp [hmem]
  · intro pid hpid hrow
    rw [get_players_prices_get]
    have hmem : pid.toKey ∈ ids.map Ident.toKey := List.mem_map_of_mem _ hpid
    rw [if_pos hmem]
    unfold priceFor Upstream.priceData
    rw [hrow]
    rfl

/-- Witness for C6: a list with a duplicate and an identifier unknown
upstream; the unknown id maps to the zero record. -/
theorem C6_no_silent_drop_witness :
    (Ident.str "999" ∈ [Ident.int 101, Ident.str "999", Ident.int 101] ∧
      sampleUpstream.playersPrice "999" Platform.PS = none) ∧
    dget (get_players_prices sampleUpstream
        [Ident.int 101, Ident.str "999", Ident.int 101] Platform.PS) "999" =
      some PlayerPrice.zero :=
  ⟨⟨by decide, by decide⟩,
    (C6_no_silent_drop sampleUpstream
        [Ident.int 101, Ident.str "999", Ident.int 101] Platform.PS).2.2
      (Ident.str "999") (by decide) (by decide)⟩

/-- C7: when the upstream response has no data for the identifier, the
single-identifier lookup returns the record with price=0, min_price=0,
max_price=0 (and no error arises; the step function is total).  Stated on
the fetch path, i.e. with the cache switched off. -/
theorem C7_missing_id_zero_record (u : Upstream) (s : ClientState) (now : Nat)
    (pid : Ident) (pf : Platform)
    (hmiss : u.playersPrice pid.toKey pf = none)
    (hnc : s.enable_cache = false) :
    (runOp u s now (Op.get_player_price pid pf)).value = Value.price PlayerPrice.zero := by
  have hnone : ∀ k, getFromCache s now k = none := by
    intro k
    unfold getFromCache
    rw [hnc]
    simp
  simp only [runOp, Op.cacheKey, hnone]
  show Value.price (PlayerPrice.from_api_response
      ((u.playersPrice pid.toKey pf).getD RawPrice.empty)) = Value.price PlayerPrice.zero
  rw [hmiss]
  rfl

/-- Witness for C7: looking up an id the sample upstream has no row for
returns the zero record. -/
theorem C7_missing_id_zero_record_witness :
    sampleUpstream.playersPrice "999" Platform.PS = none ∧
    (runOp sampleUpstream (freshState false) 0
        (Op.get_player_price (Ident.str "999") Platform.PS)).value =
      Value.price PlayerPrice.zero :=
  ⟨by decide,
    C7_missing_id_zero_record sampleUpstream (freshState false) 0
      (Ident.str "999") Platform.PS (by decide) rfl⟩


/-- Any single façade call issues at most one upstream request. -/
theorem runOp_requests_le_one (u : Upstream) (s : ClientState) (now : Nat) (op : Op) :
    (runOp u s now op).requests ≤ 1 := by
  rcases hk : op.cacheKey with _ | k
  · simp [runOp, hk]
  · rcases hc : getFromCache s now k with _ | v
    · simp [runOp, hk, hc]
    · simp [runOp, hk, hc]

/-- A call whose key is cached returns the cached value, leaves the state
unchanged and issues no request. -/
theorem runOp_hit (u : Upstream) (s : ClientState) (t : Nat) (op : Op)
    (k : String) (v : Value) (hk : op.cacheKey = some k)
    (hv : getFromCache s t k = some v) : runOp u s t op = ⟨v, s, 0⟩ := by
  simp only [runOp, hk, hv]

/-- A call whose key misses computes from upstream, populates the cache and
issues one request. -/
theorem runOp_miss (u : Upstream) (s : ClientState) (t : Nat) (op : Op)
    (k : String) (hk : op.cacheKey = some k)
    (hv : getFromCache s t k = none) :
    runOp u s t op = ⟨op.compute u, setToCache s t k (op.compute u), 1⟩ := by
  simp only [runOp, hk, hv]

/-- Setting then reading the same key of the TTL store: a hit exactly while
the read time is before insertion time plus ttl. -/
theorem ttlGet_ttlSet (c : TTLStore α) (ttl T now : Nat) (k : String) (v : α) :
    ttlGet (ttlSet c T ttl k v) now k = if now < T + ttl then some v else none := by
  unfold ttlGet ttlSet
  rw [dget_dinsert]
  simp

/-- Exhausting the three attempts on retryable failures: the full unfolding
of the tenacity loop. -/
theorem api_get_retry_exhausted (attempts : Nat → Except ApiError α)
    (e1 e2 e3 : ApiError)
    (h1 : attempts 1 = .error e1) (hr1 : e1.retryable = true)
    (h2 : attempts 2 = .error e2) (hr2 : e2.retryable = true)
    (h3 : attempts 3 = .error e3) (hr3 : e3.retryable = true) :
    api_get_retry attempts =
      ⟨.error (.retryError e3), 3, [DEFAULT_RETRY_DELAY, DEFAULT_RETRY_DELAY]⟩ := by
  unfold api_get_retry DEFAULT_RETRY_ATTEMPTS
  unfold retryLoop
  rw [h1]
  simp only [hr1, if_true]
  unfold retryLoop
  rw [h2]
  simp only [hr2, if_true]
  unfold retryLoop
  rw [h3]
  simp only [hr3, if_true]
  rfl

/-- A first attempt failing non-retryably stops the loop at once and
re-raises the original error. -/
theorem api_get_retry_no_retry (attempts : Nat → Except ApiError α)
    (e : ApiError) (h1 : attempts 1 = .error e) (hr : e.retryable = false) :
    api_get_retry attempts = ⟨.error (.raw e), 1, []⟩ := by
  unfold api_get_retry DEFAULT_RETRY_ATTEMPTS
  unfold retryLoop
  rw [h1]
  simp only [hr, if_false, Bool.false_eq_true]

/-- C3: if the transport fails with a retryable error (Timeout or
ConnectionFailed) on every attempt, exactly 3 total attempts are executed
with the fixed delay of 2 slept between consecutive attempts, and then an
error propagates; an HTTPStatus or parse failure on the first attempt stops
everything at 1 attempt and propagates as-is. -/
theorem C3_retry_bound (attempts : Nat → Except ApiError α) :
    ((∀ i, ∃ e, attempts i = .error e ∧ e.retryable = true) →
      (api_get_retry attempts).attemptsMade = 3 ∧
      (api_get_retry attempts).delays = [2, 2] ∧
      ∃ e, attempts 3 = .error e ∧
        (api_get_retry attempts).outcome = .error (.retryError e)) ∧
    (∀ c, attempts 1 = .error (.httpStatus c) →
      (api_get_retry attempts).attemptsMade = 1 ∧
      (api_get_retry attempts).outcome = .error (.raw (.httpStatus c))) ∧
    (attempts 1 = .error .parseFailure →
      (api_get_retry attempts).attemptsMade = 1 ∧
      (api_get_retry attempts).outcome = .error (.raw .parseFailure)) := by
  refine ⟨?_, ?_, ?_⟩
  · intro h
    obtain ⟨e1, h1, hr1⟩ := h 1
    obtain ⟨e2, h2, hr2⟩ := h 2
    obtain ⟨e3, h3, hr3⟩ := h 3
    rw [api_get_retry_exhausted attempts e1 e2 e3 h1 hr1 h2 hr2 h3 hr3]
    exact ⟨rfl, rfl, e3, h3, rfl⟩
  · intro c h1
    rw [api_get_retry_no_retry attempts (.httpStatus c) h1 rfl]
    exact ⟨rfl, rfl⟩
  · intro h1
    rw [api_get_retry_no_retry attempts .parseFailure h1 rfl]
    exact ⟨rfl, rfl⟩

/-- Witness for C3: an always-Timeout transport stub runs exactly 3 attempts
with two sleeps of 2, and a 404 on the first attempt runs exactly 1. -/
theorem C3_retry_bound_witness :
    ((api_get_retry (fun _ => (.error .timeout : Except ApiError Unit))).attemptsMade = 3 ∧
      (api_get_retry (fun _ => (.error .timeout : Except ApiError Unit))).delays = [2, 2]) ∧
    (api_get_retry (fun _ => (.error (.httpStatus 404) : Except ApiError Unit))).attemptsMade = 1 :=
  ⟨⟨((C3_retry_bound (fun _ => (.error .timeout : Except ApiError Unit))).1
        (fun _ => ⟨.timeout, rfl, rfl⟩)).1,
    ((C3_retry_bound (fun _ => (.error .timeout : Except ApiError Unit))).1
        (fun _ => ⟨.timeout, rfl, rfl⟩)).2.1⟩,
    ((C3_retry_bound (fun _ => (.error (.httpStatus 404) : Except ApiError Unit))).2.1
        404 rfl).1⟩

/-- C4 counterexample: with a transport failing with Timeout on every
attempt, the error that reaches the caller is a tenacity RetryError wrapping
the timeout — the decorator does not set reraise — and not the Timeout
itself, so the claim that the last failure propagates unchanged is false. -/
theorem C4_counterexample :
    (api_get_retry (fun _ => (.error .timeout : Except ApiError Unit))).outcome =
      .error (.retryError .timeout) ∧
    (api_get_retry (fun _ => (.error .timeout : Except ApiError Unit))).outcome ≠
      .error (.raw .timeout) := by
  refine ⟨rfl, ?_⟩
  intro h
  have h1 : (Except.error (RetryOutcomeErr.retryError ApiError.timeout) :
      Except RetryOutcomeErr Unit) = .error (.raw .timeout) := h
  have h2 := Except.error.inj h1
  exact RetryOutcomeErr.noConfusion h2

/-- C4 as amended: when a retryable failure persists through all 3 attempts,
what propagates is a tenacity RetryError wrapping the last observed failure;
the original kind is preserved inside the wrapper, but the propagated
exception is the wrapper, not the failure itself. -/
theorem C4_retry_error_wraps_last (attempts : Nat → Except ApiError α)
    (e1 e2 e3 : ApiError)
    (h1 : attempts 1 = .error e1) (hr1 : e1.retryable = true)
    (h2 : attempts 2 = .error e2) (hr2 : e2.retryable = true)
    (h3 : attempts 3 = .error e3) (hr3 : e3.retryable = true) :
    (api_get_retry attempts).outcome = .error (.retryError e3) := by
  rw [api_get_retry_exhausted attempts e1 e2 e3 h1 hr1 h2 hr2 h3 hr3]

/-- Witness for the amended C4: mixed retryable failures end in a RetryError
wrapping the third attempt's ConnectionFailed. -/
theorem C4_retry_error_wraps_last_witness :
    (api_get_retry (fun i => if i ≤ 2 then (.error .timeout : Except ApiError Unit)
        else .error .connectionFailed)).outcome =
      .error (.retryError .connectionFailed) :=
  C4_retry_error_wraps_last _ .timeout .timeout .connectionFailed
    rfl rfl rfl rfl rfl rfl

/-- C2 (cache transparency) fails on the code: the cache key joins the
identifier list with "," (client.py line 317), so the single-element list
["101,102"] and the two-element list [101, 102] collide on the key
"get_players_prices:101,102:PS".  With caching enabled the second call
returns the first call's cached one-entry mapping; with caching disabled it
returns the two-entry mapping — the returned value changes. -/
theorem C2_cache_key_collision_changes_value :
    (Op.get_players_prices [Ident.str "101,102"] Platform.PS).cacheKey =
      (Op.get_players_prices [Ident.int 101, Ident.int 102] Platform.PS).cacheKey ∧
    (runTrace sampleUpstream (freshState true)
        [(0, Op.get_players_prices [Ident.str "101,102"] Platform.PS),
         (1, Op.get_players_prices [Ident.int 101, Ident.int 102] Platform.PS)]).1 =
      [Value.prices [("101,102", PlayerPrice.zero)],
       Value.prices [("101,102", PlayerPrice.zero)]] ∧
    (runTrace sampleUpstream (freshState false)
        [(0, Op.get_players_prices [Ident.str "101,102"] Platform.PS),
         (1, Op.get_players_prices [Ident.int 101, Ident.int 102] Platform.PS)]).1 =
      [Value.prices [("101,102", PlayerPrice.zero)],
       Value.prices [("101", ⟨500, 450, 550, "now"⟩), ("102", ⟨700, 650, 750, "now"⟩)]] := by
  refine ⟨rfl, by decide, by decide⟩

/-- C8 counterexample: search_players performs no cache access (client.py
414-439 derive no key and never consult or populate the cache), so two
consecutive identical search calls with caching enabled issue two upstream
requests, not at most one. -/
theorem C8_counterexample :
    (runTrace sampleUpstream (freshState true)
        [(0, Op.search_players none), (1, Op.search_players none)]).2 = 2 ∧
    ¬ (runTrace sampleUpstream (freshState true)
        [(0, Op.search_players none), (1, Op.search_players none)]).2 ≤ 1 := by
  refine ⟨rfl, by decide⟩

/-- C8 as amended: every façade method except search_players consults the
response cache first, returns immediately on a hit and populates the cache
on a miss, so two consecutive identical calls within the TTL window issue at
most one upstream request; search_players is the sole exception — it never
touches the cache and issues one upstream request on every call. -/
theorem C8_cache_consultation (u : Upstream) (s : ClientState) (op : Op)
    (t1 t2 : Nat) (hen : s.enable_cache = true) (h12 : t1 ≤ t2)
    (hts : t2 < t1 + s.cache_ttl) :
    (op.usesCache = true →
      (runOp u s t1 op).requests +
        (runOp u (runOp u s t1 op).state t2 op).requests ≤ 1) ∧
    (op.usesCache = false → ∃ o, op = .search_players o) ∧
    (∀ o, op = .search_players o →
      (runOp u s t1 op).requests = 1 ∧
      (runOp u (runOp u s t1 op).state t2 op).requests = 1) := by
  refine ⟨?_, ?_, ?_⟩
  · intro hc
    unfold Op.usesCache at hc
    rcases hk : op.cacheKey with _ | k
    · rw [hk] at hc
      simp at hc
    · rcases hhit : getFromCache s t1 k with _ | v
      · have hr1 := runOp_miss u s t1 op k hk hhit
        have hs1 : (runOp u s t1 op).state =
            { s with cache := ttlSet s.cache t1 s.cache_ttl k (op.compute u) } := by
          rw [hr1]
          simp [setToCache, hen]
        have hhit2 : getFromCache (runOp u s t1 op).state t2 k = some (op.compute u) := by
          rw [hs1]
          simp [getFromCache, hen, ttlGet_ttlSet, hts]
        have hr2 := runOp_hit u (runOp u s t1 op).state t2 op k (op.compute u) hk hhit2
        rw [hr2, hr1]
        simp
      · have hr1 := runOp_hit u s t1 op k v hk hhit
        rw [hr1]
        show 0 + (runOp u s t2 op).requests ≤ 1
        rw [Nat.zero_add]
        exact runOp_requests_le_one u s t2 op
  · intro hnc
    unfold Op.usesCache at hnc
    cases op with
    | search_players o => exact ⟨o, rfl⟩
    | get_player_price pid pf => simp [Op.cacheKey] at hnc
    | get_player_price_by_resource_id rid pf => simp [Op.cacheKey] at hnc
    | get_players_prices ids pf => simp [Op.cacheKey] at hnc
    | get_popular_players => simp [Op.cacheKey] at hnc
    | get_totw => simp [Op.cacheKey] at hnc
    | get_latest_players => simp [Op.cacheKey] at hnc
    | get_leagues_and_clubs => simp [Op.cacheKey] at hnc
    | get_card_versions => simp [Op.cacheKey] at hnc
  · rintro o rfl
    exact ⟨rfl, rfl⟩

/-- Witness for the amended C8: two identical get_popular_players calls one
time unit apart issue at most one request, and two identical searches issue
one request each. -/
theorem C8_cache_consultation_witness :
    ((runOp sampleUpstream (freshState true) 0 Op.get_popular_players).requests +
      (runOp sampleUpstream
        (runOp sampleUpstream (freshState true) 0 Op.get_popular_players).state
        1 Op.get_popular_players).requests ≤ 1) ∧
    (runOp sampleUpstream (freshState true) 0 (Op.search_players none)).requests = 1 :=
  ⟨(C8_cache_consultation sampleUpstream (freshState true) Op.get_popular_players
      0 1 rfl (by decide) (by decide)).1 rfl,
    ((C8_cache_consultation sampleUpstream (freshState true) (Op.search_players none)
      0 1 rfl (by decide) (by decide)).2.2 none rfl).1⟩


/-- Keys of a base-then-guarded-entries parameter dict: the base keys
followed by exactly the guarded keys whose option fired. -/
theorem keys_base_filterMap (base : List (String × ParamVal))
    (spec : List (String × Option ParamVal)) :
    (base ++ spec.filterMap (fun p => p.2.map (fun v => (p.1, v)))).map Prod.fst =
      base.map Prod.fst ++ spec.filterMap (fun p => p.2.map (fun _ => p.1)) := by
  rw [List.map_append]
  refine congrArg (fun t => base.map Prod.fst ++ t) ?_
  induction spec with
  | nil => rfl
  | cons p spec ih =>
    cases h : p.2 with
    | none => simp [List.filterMap_cons, h, ih]
    | some v => simp [List.filterMap_cons, h, ih]

/-- C9: to_params always contains the platform and page entries; its key
list is exactly "platform", "page" followed by the guarded optional keys
whose field passed its guard (so an optional field contributes an entry only
when it is set, and an unset field is never transmitted — neither as null
nor as zero); with every optional field unset the mapping is exactly the
platform and page entries. -/
theorem C9_to_params_optional_fields (o : PlayerSearchOptions) :
    ("platform", ParamVal.str o.platform) ∈ o.to_params ∧
    ("page", ParamVal.int o.page) ∈ o.to_params ∧
    o.to_params.map Prod.fst =
      "platform" :: "page" ::
        o.optSpec.filterMap (fun p => p.2.map (fun _ => p.1)) ∧
    defaultSearchOptions.to_params =
      [("platform", ParamVal.str "PS"), ("page", ParamVal.int 1)] := by
  refine ⟨?_, ?_, ?_, ?_⟩
  · unfold PlayerSearchOptions.to_params
    exact List.mem_append_left _ (by simp)
  · unfold PlayerSearchOptions.to_params
    exact List.mem_append_left _ (by simp)
  · unfold PlayerSearchOptions.to_params
    rw [keys_base_filterMap]
    rfl
  · rfl

/-- C10 counterexample: _parse_price_text does raise on some inputs — the
input "INF" parses to an infinite float, and int() of an infinite float
raises OverflowError, which the `except (ValueError, TypeError)` handler
does not catch. -/
theorem C10_counterexample :
    parse_price_text "INF" = .error .overflowError ∧
    ¬ ∃ n, parse_price_text "INF" = .ok n := by
  refine ⟨rfl, ?_⟩
  rintro ⟨n, h⟩
  rw [show parse_price_text "INF" = .error .overflowError from rfl] at h
  exact Except.noConfusion h

/-- The string the price parser hands to float(): everything before a
trailing K or M, or the whole (normalised) text. -/
def priceNumericPart (cs : List Char) : List Char :=
  if cs.getLast? = some 'K' then cs.dropLast
  else if cs.getLast? = some 'M' then cs.dropLast
  else cs

/-- Case split on the three suffix branches of parsePriceCore. -/
theorem parsePriceCore_eq (cs : List Char) :
    (cs.getLast? = some 'K' ∧
      parsePriceCore cs = (match pyIntFloatScaled cs.dropLast 1000 with
        | .ok (some n) => .ok n
        | .ok none => .ok 0
        | .error e => .error e)) ∨
    (cs.getLast? ≠ some 'K' ∧ cs.getLast? = some 'M' ∧
      parsePriceCore cs = (match pyIntFloatScaled cs.dropLast 1000000 with
        | .ok (some n) => .ok n
        | .ok none => .ok 0
        | .error e => .error e)) ∨
    (cs.getLast? ≠ some 'K' ∧ cs.getLast? ≠ some 'M' ∧
      parsePriceCore cs = (match pyIntFloatScaled cs 1 with
        | .ok (some n) => .ok n
        | .ok none => .ok 0
        | .error e => .error e)) := by
  by_cases hK : cs.getLast? = some 'K'
  · refine Or.inl ⟨hK, ?_⟩
    unfold parsePriceCore
    rw [if_pos hK]
  · by_cases hM : cs.getLast? = some 'M'
    · refine Or.inr (Or.inl ⟨hK, hM, ?_⟩)
      unfold parsePriceCore
      rw [if_neg hK, if_pos hM]
    · refine Or.inr (Or.inr ⟨hK, hM, ?_⟩)
      unfold parsePriceCore
      rw [if_neg hK, if_neg hM]

/-- C10 as amended: the parser returns an integer for every input except
those whose numeric part parses to an infinite float (such as "inf"), where
an OverflowError escapes; the empty string yields 0, an unparseable or NaN
numeric part yields 0, a finite numeric part q with suffix K yields q*1000
truncated toward zero and with suffix M yields q*1000000 truncated, a plain
finite numeric part yields its truncation, and the result depends only on
the stripped, uppercased, comma-free text (so commas are ignored). -/
theorem C10_parse_price_text (s : String) (cs : List Char) (q : ℚ) :
    ((∃ n, parse_price_text s = .ok n) ∨
      parse_price_text s = .error .overflowError) ∧
    parse_price_text "" = .ok 0 ∧
    (pyFloatOfChars cs = some (.finite q) →
      parsePriceCore (cs ++ ['K']) = .ok (pyTrunc (q * 1000)) ∧
      parsePriceCore (cs ++ ['M']) = .ok (pyTrunc (q * 1000000))) ∧
    ((pyFloatOfChars cs = none ∨ pyFloatOfChars cs = some .nan) →
      cs.getLast? ≠ some 'K' → cs.getLast? ≠ some 'M' →
      parsePriceCore cs = .ok 0) ∧
    (pyFloatOfChars cs = some (.finite q) →
      cs.getLast? ≠ some 'K' → cs.getLast? ≠ some 'M' →
      parsePriceCore cs = .ok (pyTrunc q)) ∧
    (s ≠ "" →
      parse_price_text s = parsePriceCore (removeCommas (upperChars (stripChars s.toList)))) := by
  refine ⟨?_, rfl, ?_, ?_, ?_, ?_⟩
  · by_cases hs : s = ""
    · exact Or.inl ⟨0, by rw [hs]; rfl⟩
    · have hcore : ∀ r : Except PyErr Int,
          (∃ n, r = .ok n) ∨ r = .error .overflowError := by
        rintro (e | n)
        · cases e
          exact Or.inr rfl
        · exact Or.inl ⟨n, rfl⟩
      unfold parse_price_text
      rw [if_neg hs]
      exact hcore _
  · intro hq
    constructor
    · unfold parsePriceCore
      rw [if_pos (by simp : (cs ++ ['K']).getLast? = some 'K'),
        List.dropLast_concat]
      unfold pyIntFloatScaled
      rw [hq]
    · have hKM : ¬ (cs ++ ['M']).getLast? = some 'K' := by simp
      unfold parsePriceCore
      rw [if_neg hKM, if_pos (by simp : (cs ++ ['M']).getLast? = some 'M'),
        List.dropLast_concat]
      unfold pyIntFloatScaled
      rw [hq]
  · intro hq hK hM
    unfold parsePriceCore
    rw [if_neg hK, if_neg hM]
    unfold pyIntFloatScaled
    rcases hq with h | h <;> rw [h]
  · intro hq hK hM
    unfold parsePriceCore
    rw [if_neg hK, if_neg hM]
    unfold pyIntFloatScaled
    rw [hq]
    show (Except.ok (pyTrunc (q * 1)) : Except PyErr Int) = .ok (pyTrunc q)
    rw [mul_one]
  · intro hs
    unfold parse_price_text
    rw [if_neg hs]

/-- Witness for the amended C10: "1.5K" (with a comma thrown in and lower
case) parses through the K branch to 1500, "2M" to 2000000, "abc" to 0, and
"" to 0. -/
theorem C10_parse_price_text_witness :
    parsePriceCore ("1.5".toList ++ ['K']) = .ok (pyTrunc ((3 / 2 : ℚ) * 1000)) ∧
    pyTrunc ((3 / 2 : ℚ) * 1000) = 1500 ∧
    parse_price_text "1,5 00" = parsePriceCore
      (removeCommas (upperChars (stripChars "1,5 00".toList))) ∧
    parsePriceCore ("abc".toList) = .ok 0 ∧
    parse_price_text "" = .ok 0 :=
  ⟨((C10_parse_price_text "x" "1.5".toList (3 / 2)).2.2.1 (by
      simp [pyFloatOfChars, stripChars, upperChars, pySpace, parseDecimal, digitsToNat]
      norm_num)).1,
    by norm_num [pyTrunc, Rat.floor_def'],
    (C10_parse_price_text "1,5 00" [] 0).2.2.2.2.2 (by decide),
    (C10_parse_price_text "x" "abc".toList 0).2.2.2.1 (Or.inl (by decide))
      (by decide) (by decide),
    (C10_parse_price_text "x" [] 0).2.1⟩

end Futbin
